import Mathlib

/-!
Shallow embedding of `src/league.py` (mitchbregs/fantasy-analytics) and of the
utility modules it imports (`utils/http_util.request_status`,
`utils/json_util.get_nested`, `utils/object_util._cast_none`,
`constants.STATS_INT_TO_STRING`), which are part of the repository but whose
source is not available here; those are modelled from the specification.

Python exceptions are embedded as an explicit error type carried by `Except`;
Python's negative-index list access is embedded by `pyIndex`; dictionaries are
embedded as insertion-ordered association lists.
-/

namespace FantasyAnalytics

/-- Python exceptions raised (or raisable) by `league.py` and its utilities:
`ValueError` (credential check in `League.__init__`), the HTTP error raised by
`request_status`, `IndexError` (list subscripts out of range), and
`AttributeError` (calling `.items()` on `None`). -/
inductive PyError where
  | valueError (msg : String)
  | httpError (status : Nat)
  | indexError
  | attributeError
  deriving DecidableEq, Repr

/-- The spec's `AuthError` (§7): "no credential material supplied at
construction".  `League.__init__` realizes it as
`ValueError('No Authorization Credentials')`. -/
def AuthError : PyError := .valueError "No Authorization Credentials"

/-- A Python `for` loop that appends one result per element to an accumulator
list: the first raised exception aborts the whole loop. -/
def forE {α β : Type} (f : α → Except PyError β) : List α → Except PyError (List β)
  | [] => .ok []
  | a :: t =>
      match f a with
      | .error e => .error e
      | .ok b =>
          match forE f t with
          | .error e => .error e
          | .ok bs => .ok (b :: bs)

/-- Python list subscript `l[i]` with an `Int` index: nonnegative indices are
0-based from the front, negative indices count from the back (`l[-1]` is the
last element); out-of-range access yields `none` (Python: `IndexError`). -/
def pyIndex {α : Type} (l : List α) (i : Int) : Option α :=
  if 0 ≤ i then l.get? i.toNat
  else if (-i).toNat ≤ l.length then l.get? (l.length - (-i).toNat)
  else none

/-! ### JSON values and the nested field accessor

`get_nested` lives in `utils/json_util.py`, which is not under `src/`. -/

/-- A JSON value: the shape `get_nested` walks over. -/
inductive JVal where
  | null
  | num (n : Int)
  | str (s : String)
  | arr (xs : List JVal)
  | obj (fields : List (String × JVal))

/-- Split a character list at `'.'` separators, accumulating the current
segment in reverse. -/
def splitPathAux : List Char → List Char → List String
  | [], acc => [String.mk acc.reverse]
  | c :: cs, acc =>
      if c = '.' then String.mk acc.reverse :: splitPathAux cs []
      else splitPathAux cs (c :: acc)

/-- Split a dot-delimited path string into its segments
(Python `path.split('.')`). -/
def splitPath (path : String) : List String :=
  splitPathAux path.toList []

/-- Walk a list of path segments: at each segment the current value must be a
mapping containing that key, otherwise the result is the missing sentinel
(`none`). -/
def getNestedGo : List String → JVal → Option JVal
  | [], v => some v
  | k :: rest, .obj fields =>
      match fields.find? (fun kv => kv.1 == k) with
      | some kv => getNestedGo rest kv.2
      | none => none
  | _ :: _, _ => none

/-- Modelled from the spec: `utils/json_util.get_nested` (not under `src/`).
"Given a mapping and a dot-delimited path string, walks the path segment by
segment.  If any segment is absent or the current value is not a mapping,
returns a defined missing sentinel (distinct from a legitimate `None`/zero
value) rather than failing."  The sentinel is `Option.none`, distinct from
`some JVal.null`.  The function is pure, so the input mapping is never
mutated. -/
def get_nested (v : JVal) (path : String) : Option JVal :=
  getNestedGo (splitPath path) v

/-! ### Stat code mapping and null coercion

`STATS_INT_TO_STRING` lives in `constants.py` and `_cast_none` in
`utils/object_util.py`, neither of which is under `src/`. -/

/-- Modelled from the spec: `constants.STATS_INT_TO_STRING` (not under `src/`),
"a static mapping from provider numeric stat IDs (as reported in a statline's
stat dictionary keys) to canonical names {points, blocks, steals, assists,
rebounds}", with `0 → points` and `1 → blocks` as fixed by the spec's
examples. -/
def STATS_INT_TO_STRING : List (Nat × String) :=
  [(0, "points"), (1, "blocks"), (2, "steals"), (3, "assists"), (6, "rebounds")]

/-- Dictionary lookup in `STATS_INT_TO_STRING` (Python `d[k]` / `k in d`). -/
def statName (k : Nat) : Option String :=
  (STATS_INT_TO_STRING.find? (fun kv => kv.1 == k)).map (fun kv => kv.2)

/-- The dict comprehension in `League._fetch_stats`:
`dict((STATS_INT_TO_STRING[k], v) for (k, v) in season_totals.items()
      if k in STATS_INT_TO_STRING.keys())`
— keep exactly the entries whose key is in the static mapping, renamed to the
canonical name, values unchanged; unknown keys are dropped. -/
def statCodeMapper (season_totals : List (Nat × Int)) : List (String × Int) :=
  season_totals.filterMap (fun kv => (statName kv.1).map (fun nm => (nm, kv.2)))

/-- Python `dict.get`: lookup in an association list, `none` when absent. -/
def dictGet {α β : Type} [BEq α] (d : List (α × β)) (k : α) : Option β :=
  (d.find? (fun kv => kv.1 == k)).map (fun kv => kv.2)

/-- Modelled from the spec: `utils/object_util._cast_none` (not under `src/`):
stat fields are "coerced through absence→zero", i.e. `None` becomes `0` and a
present value is kept. -/
def cast_none (v : Option Int) : Int :=
  v.getD 0

/-! ### Status validator

`request_status` lives in `utils/http_util.py`, which is not under `src/`. -/

/-- Modelled from the spec: `utils/http_util.request_status` (not under
`src/`): "given an HTTP status code, succeeds silently for 2xx; fails with an
`HttpError` (carrying the code) for all other codes". -/
def request_status (status : Nat) : Except PyError Unit :=
  if 200 ≤ status ∧ status ≤ 299 then .ok () else .error (.httpError status)

/-! ### Response shapes

The HTTP transport is an external collaborator; a response is embedded as the
pair of its status code and its parsed JSON body, with the body typed by the
fields `league.py` reads from it. -/

/-- A transport response: status code plus parsed body. -/
structure Response (β : Type) where
  status : Nat
  body : β

/-- One element of `data['members']`: fields `id`, `displayName`. -/
structure RawMember where
  id : Int
  displayName : String
  deriving DecidableEq, Repr

/-- One element of `data['teams']` in the league-meta response: fields `id`,
`owners` (a list; `owners[0]` is read), `nickname`. -/
structure RawTeam where
  id : Int
  owners : List String
  nickname : String
  deriving DecidableEq, Repr

/-- Body of the league-meta response: `members`, `teams`,
`status.currentMatchupPeriod`, `status.latestScoringPeriod`. -/
structure LeagueBody where
  members : List RawMember
  teams : List RawTeam
  currentMatchupPeriod : Int
  latestScoringPeriod : Int

/-- A member record built by `_fetch_league_meta`: `{'id': ..., 'name': ...}`. -/
structure Member where
  id : Int
  name : String
  deriving DecidableEq, Repr

/-- A team record built by `_fetch_league_meta`:
`{'id': ..., 'owner': ..., 'name': ...}`. -/
structure Team where
  id : Int
  owner : String
  name : String
  deriving DecidableEq, Repr

/-- The `meta` dictionary built by `_fetch_league_meta`. -/
structure Meta where
  current_week : Int
  nba_day : Int
  members : List Member
  teams : List Team
  deriving DecidableEq, Repr

/-- One element of `resp.json()['teams']` in the `mTeam` response: fields
`abbrev`, `primaryOwner`, `nickname`, `record.overall.{wins,losses,ties}`
(flattened here), `valuesByStat`. -/
structure MTeamEntry where
  «abbrev» : String
  primaryOwner : String
  nickname : String
  wins : Int
  losses : Int
  ties : Int
  valuesByStat : List (Nat × Int)
  deriving DecidableEq, Repr

/-- The `team_meta` dictionary built by `_fetch_team_meta`. -/
structure TeamMeta where
  id : Int
  «abbrev» : String
  owner : String
  name : String
  record : Int × Int × Int
  stats : List (Nat × Int)
  deriving DecidableEq, Repr

/-! ### League state and construction -/

/-- The `League` instance's fields after a successful `__init__`. -/
structure LeagueState where
  league_id : Int
  year : Int
  team_id : Int
  cookies : List (String × String)
  meta : Meta

/-- Python truthiness of the `cookies` argument (`if not self.cookies`):
falsy when `None` or an empty mapping. -/
def cookiesFalsy (cookies : Option (List (String × String))) : Bool :=
  match cookies with
  | none => true
  | some l => l.isEmpty

/-- `League._fetch_league_meta`: validate the status, then extract members,
teams (`x['owners'][0]` raises `IndexError` on an empty owner list),
`current_week` and `nba_day`. -/
def fetchLeagueMeta (resp : Response LeagueBody) : Except PyError Meta := do
  _ ← request_status resp.status
  let members := resp.body.members.map (fun x => Member.mk x.id x.displayName)
  let teams ← forE (fun x =>
    match x.owners with
    | [] => Except.error PyError.indexError
    | o :: _ => Except.ok (Team.mk x.id o x.nickname)) resp.body.teams
  return Meta.mk resp.body.currentMatchupPeriod resp.body.latestScoringPeriod
    members teams

/-- `League.__init__`: store the arguments, fail with the auth error if the
cookies are falsy, otherwise fetch the league meta.  The second component
counts the HTTP requests issued, so "no fetch attempted" is observable: the
failing path never consults `resp`. -/
def leagueInit (league_id year team_id : Int)
    (cookies : Option (List (String × String)))
    (resp : Response LeagueBody) : Except PyError LeagueState × Nat :=
  if cookiesFalsy cookies then
    (.error AuthError, 0)
  else
    match fetchLeagueMeta resp with
    | .ok m => (.ok ⟨league_id, year, team_id, cookies.getD [], m⟩, 1)
    | .error e => (.error e, 1)

/-! ### Team meta fetch -/

/-- `League._fetch_team_meta`: default `team_id` to the configured one
(Python `team_id if team_id is not None else self.team_id`), validate the
status, then read `teams[team_id-1]` (Python subscript: 1-based external id
corrected to 0-based, negative values index from the back) and build the
`team_meta` record.  The instance state is returned unchanged: the method
assigns no attribute. -/
def fetchTeamMeta (st : LeagueState) (team_id : Option Int)
    (resp : Response (List MTeamEntry)) :
    LeagueState × Except PyError TeamMeta :=
  let tid := team_id.getD st.team_id
  (st, do
    _ ← request_status resp.status
    match pyIndex resp.body (tid - 1) with
    | none => Except.error PyError.indexError
    | some my_team =>
        Except.ok
          (TeamMeta.mk tid my_team.abbrev my_team.primaryOwner my_team.nickname
            (my_team.wins, my_team.losses, my_team.ties) my_team.valuesByStat))

/-! ### Rosters fetch -/

/-- One statline of a player: `statSplitTypeId` (read with `.get`, hence
optional) and the raw stat dictionary `stats` (also read with `.get`;
`None.items()` raises `AttributeError`). -/
structure RawStatline where
  statSplitTypeId : Option Int
  stats : Option (List (Nat × Int))
  deriving DecidableEq, Repr

/-- The `playerPoolEntry.player` object of a roster entry: the source reads
`fullName`, `id` and `stats` under it.  The nested path is flattened into
typed fields here (the claims only concern entries where the path is
present). -/
structure PlayerInfo where
  fullName : String
  id : Int
  stats : List RawStatline
  deriving DecidableEq, Repr

/-- One element of `team['roster']['entries']`: `playerId` plus the
`playerPoolEntry.player` object. -/
structure RosterEntry where
  playerId : Int
  player : PlayerInfo
  deriving DecidableEq, Repr

/-- One element of `data['teams']` in the `mRoster` (raw roster) response:
the team `id` and `roster.entries`. -/
structure RawRoster where
  id : Int
  entries : List RosterEntry
  deriving DecidableEq, Repr

/-- `League._fetch_rosters`: validate the status, then build, per team, the
list of `(playerId, fullName)` pairs keyed by team id (the Python dict is
embedded as an insertion-ordered association list).  The instance state is
returned unchanged: the method assigns no attribute. -/
def fetchRosters (st : LeagueState) (resp : Response (List RawRoster)) :
    LeagueState × Except PyError (List (Int × List (Int × String))) :=
  (st, do
    _ ← request_status resp.status
    return resp.body.map (fun team =>
      (team.id, team.entries.map (fun e => (e.playerId, e.player.fullName)))))

/-! ### Per-player stats (`League._fetch_stats`)

`_fetch_stats` iterates `self.rosters` (the raw roster payload: one object per
team with `id` and `roster.entries`) and cross-references the team list
returned by `self._fetch_teams()`; neither the attribute nor that method is
defined in `src/league.py`, so both are parameters here.  A team in that list
is read through its `id` and `nickname` fields. -/

/-- A team object of the `_fetch_teams()` payload: `id` and `nickname`. -/
structure NamedTeam where
  id : Int
  nickname : String
  deriving DecidableEq, Repr

/-- The five canonical stat fields of a player stat record, each coerced
through `_cast_none`. -/
structure StatFields where
  points : Int
  blocks : Int
  steals : Int
  assists : Int
  rebounds : Int
  deriving DecidableEq, Repr

/-- A player stat record as built by `_fetch_stats` (the `teamId` key is
assigned the team *display name*, `team_name`, a string). -/
structure PlayerStat where
  teamId : String
  name : String
  id : Int
  stats : StatFields
  deriving DecidableEq, Repr

/-- The statlines of a player whose split-type marker equals `2`
(`statline.get('statSplitTypeId') == 2`): the season totals. -/
def seasonStatlines (p : PlayerInfo) : List RawStatline :=
  p.stats.filter (fun sl => sl.statSplitTypeId == some 2)

/-- Python `str.strip()`: remove whitespace from both ends. -/
def pyStrip (s : String) : String :=
  String.mk ((((s.toList).dropWhile Char.isWhitespace).reverse.dropWhile
    Char.isWhitespace).reverse)

/-- `[x['nickname'] for x in teams['teams'] if x['id'] == idx][0].strip()`:
the nickname of the team with the given id; `IndexError` when no team
matches. -/
def teamNameFor (teams : List NamedTeam) (idx : Int) : Except PyError String :=
  match (teams.filter (fun x => x.id == idx)).map (fun x => x.nickname) with
  | [] => .error .indexError
  | n :: _ => .ok (pyStrip n)

/-- Build one `player_metadata` record from a season-total statline: map the
raw stat dictionary through the stat code mapper, then read each canonical
field with `.get` and coerce it through `_cast_none`
(`statline.get('stats')` being `None` raises `AttributeError` at
`.items()`). -/
def mkPlayerRecord (team_name : String) (p : PlayerInfo) (sl : RawStatline) :
    Except PyError PlayerStat :=
  match sl.stats with
  | none => .error .attributeError
  | some season_totals =>
      let relevant_items := statCodeMapper season_totals
      .ok
        { teamId := team_name
          name := p.fullName
          id := p.id
          stats :=
            { points := cast_none (dictGet relevant_items "points")
              blocks := cast_none (dictGet relevant_items "blocks")
              steals := cast_none (dictGet relevant_items "steals")
              assists := cast_none (dictGet relevant_items "assists")
              rebounds := cast_none (dictGet relevant_items "rebounds") } }

/-- The inner double loop of `_fetch_stats` for one team: for each player of
the roster, for each statline with split-type `2`, append one player record
(statlines of other split types are skipped, and a player with no split-`2`
statline contributes nothing). -/
def fetchTeamStats (teams : List NamedTeam) (roster : RawRoster) :
    Except PyError (List PlayerStat) :=
  forE
    (fun psl => do
      let team_name ← teamNameFor teams roster.id
      mkPlayerRecord team_name psl.1 psl.2)
    (roster.entries.flatMap
      (fun e => (seasonStatlines e.player).map (fun sl => (e.player, sl))))

/-- `League._fetch_stats`: one list of player stat records per team of the
raw roster payload. -/
def fetchStats (teams : List NamedTeam) (rosters : List RawRoster) :
    Except PyError (List (List PlayerStat)) :=
  forE (fetchTeamStats teams) rosters

/-! ### Team totals (`League._calculate_totals`) -/

/-- One `stat_totals` record. -/
structure StatTotals where
  teamId : String
  points : Int
  blocks : Int
  steals : Int
  assists : Int
  rebounds : Int
  deriving DecidableEq, Repr

/-- The `stat_totals` dictionary for one team's roster, with the team id read
from `roster[0]` and each field the sum over the roster: total as a function
by defaulting the head's `teamId` to `""`; `calculateTotals` only uses it on
nonempty rosters. -/
def mkStatTotals (roster : List PlayerStat) : StatTotals :=
  { teamId := ((roster.head?).map (fun r => r.teamId)).getD ""
    points := (roster.map (fun d => d.stats.points)).sum
    blocks := (roster.map (fun d => d.stats.blocks)).sum
    steals := (roster.map (fun d => d.stats.steals)).sum
    assists := (roster.map (fun d => d.stats.assists)).sum
    rebounds := (roster.map (fun d => d.stats.rebounds)).sum }

/-- Python truthiness of the `team_id` argument of `_calculate_totals`
(`if not team_id`): with the `teamId` field a string, the filter value is a
string option; `None` and the empty string are falsy. -/
def teamIdTruthy (team_id : Option String) : Bool :=
  match team_id with
  | none => false
  | some s => !(s == "")

/-- The loop body of `_calculate_totals` for one roster: `roster[0]` raises
`IndexError` on an empty roster, otherwise the totals row is built. -/
def totalsRow (roster : List PlayerStat) : Except PyError StatTotals :=
  match roster with
  | [] => .error .indexError
  | _ :: _ => .ok (mkStatTotals roster)

/-- `League._calculate_totals`: build one totals record per roster
(`roster[0]` raises `IndexError` on an empty roster), then return them all
when `team_id` is falsy, else only those whose `teamId` equals `team_id`. -/
def calculateTotals (roster_stats : List (List PlayerStat))
    (team_id : Option String) : Except PyError (List StatTotals) := do
  let team_totals ← forE totalsRow roster_stats
  if teamIdTruthy team_id then
    return team_totals.filter (fun x => some x.teamId == team_id)
  else
    return team_totals

/-! ### Concrete sample data used by the witnesses -/

/-- The spec's example mapping `{"a": {"b": {"c": 5}}}`. -/
def exMap : JVal := .obj [("a", .obj [("b", .obj [("c", .num 5)])])]

/-- A player stat record on team "A" with 10 points. -/
def pA : PlayerStat := ⟨"A", "P1", 1, ⟨10, 0, 0, 0, 0⟩⟩

/-- A second player stat record on team "A" with 5 points. -/
def pB : PlayerStat := ⟨"A", "P2", 2, ⟨5, 0, 0, 0, 0⟩⟩

/-- A season-total statline (split-type `2`). -/
def slSeason : RawStatline := ⟨some 2, some [(0, 10)]⟩

/-- A weekly statline (split-type `1`). -/
def slWeekly : RawStatline := ⟨some 1, some [(0, 3)]⟩

/-- A roster entry whose player has one season-total statline. -/
def entry1 : RosterEntry := ⟨100, ⟨"Alice", 100, [slSeason]⟩⟩

/-- A roster entry whose player has only a weekly statline (no split-type
`2`). -/
def entryQ : RosterEntry := ⟨101, ⟨"Bob", 101, [slWeekly]⟩⟩

/-- A one-team team list for the name cross-reference. -/
def sampleTeams : List NamedTeam := [⟨1, "A"⟩]

/-- A concrete league state. -/
def st0 : LeagueState := ⟨10, 2021, 1, [("swid", "x")], ⟨1, 2, [], []⟩⟩

/-- First entry of a concrete three-team `mTeam` response body. -/
def mt1 : MTeamEntry := ⟨"AAA", "o1", "Team One", 1, 0, 0, []⟩

/-- Second entry of a concrete three-team `mTeam` response body. -/
def mt2 : MTeamEntry := ⟨"BBB", "o2", "Team Two", 2, 1, 0, []⟩

/-- Third entry of a concrete three-team `mTeam` response body. -/
def mt3 : MTeamEntry := ⟨"CCC", "o3", "Team Three", 0, 3, 1, []⟩

/-! ### Helper lemmas about the effectful loop -/

/-- When the body succeeds on every element, the loop returns the map. -/
theorem forE_ok_of_all {α β : Type} (f : α → Except PyError β) (g : α → β) :
    ∀ l : List α, (∀ a ∈ l, f a = .ok (g a)) → forE f l = .ok (l.map g) := by
  intro l
  induction l with
  | nil => intro _; rfl
  | cons a t ih =>
      intro h
      have ha : f a = .ok (g a) := h a (by simp)
      have ht : forE f t = .ok (t.map g) :=
        ih (fun b hb => h b (List.mem_cons_of_mem a hb))
      simp [forE, ha, ht]

/-- A successful loop returns one result per element. -/
theorem forE_length {α β : Type} (f : α → Except PyError β) :
    ∀ (l : List α) (l' : List β), forE f l = .ok l' → l'.length = l.length := by
  intro l
  induction l with
  | nil =>
      intro l' h
      simp only [forE] at h
      cases h
      rfl
  | cons a t ih =>
      intro l' h
      simp only [forE] at h
      cases hfa : f a with
      | error e => rw [hfa] at h; cases h
      | ok b =>
          rw [hfa] at h
          cases hft : forE f t with
          | error e => rw [hft] at h; cases h
          | ok bs =>
              rw [hft] at h
              cases h
              simp [ih bs hft]

/-- If the body fails on some element and on no earlier element succeeds with
a different error, the loop fails with that error.  Phrased for a body that
either succeeds or fails with the fixed error `e`. -/
theorem forE_error_of_mem {α β : Type} (f : α → Except PyError β) (e : PyError) :
    ∀ l : List α, (∀ a ∈ l, f a = .error e ∨ ∃ b, f a = .ok b) →
      (∃ a ∈ l, f a = .error e) → forE f l = .error e := by
  intro l
  induction l with
  | nil => intro _ hex; rcases hex with ⟨a, ha, _⟩; cases ha
  | cons a t ih =>
      intro hall hex
      rcases hall a (by simp) with ha | ⟨b, hb⟩
      · simp [forE, ha]
      · rcases hex with ⟨c, hc, hce⟩
        rcases List.mem_cons.mp hc with rfl | hct
        · rw [hce] at hb; cases hb
        · have ht : forE f t = .error e :=
            ih (fun x hx => hall x (List.mem_cons_of_mem a hx)) ⟨c, hct, hce⟩
          simp [forE, hb, ht]

/-! ### Claim theorems -/

/-- C1: constructing the `League` aggregator with empty or absent credential
material always fails with the auth error (`ValueError('No Authorization
Credentials')`, the spec's `AuthError`), for every combination of
`league_id`, `year` and `team_id`, and no HTTP fetch is attempted before the
failure (the request counter stays `0` and the response is never
consulted). -/
theorem construction_without_credentials_fails
    (league_id year team_id : Int) (cookies : Option (List (String × String)))
    (resp : Response LeagueBody) (h : cookiesFalsy cookies = true) :
    leagueInit league_id year team_id cookies resp = (.error AuthError, 0) := by
  simp [leagueInit, h]

/-- Witness for C1 at concrete inputs: both absent (`none`) and empty
(`some []`) cookies, arbitrary ids, a healthy response. -/
theorem construction_without_credentials_fails_witness :
    cookiesFalsy none = true ∧
    cookiesFalsy (some []) = true ∧
    leagueInit 10 2021 3 none ⟨200, ⟨[], [], 1, 2⟩⟩ = (.error AuthError, 0) ∧
    leagueInit 10 2021 3 (some []) ⟨200, ⟨[], [], 1, 2⟩⟩ = (.error AuthError, 0) :=
  ⟨rfl, rfl,
    construction_without_credentials_fails 10 2021 3 none ⟨200, ⟨[], [], 1, 2⟩⟩ rfl,
    construction_without_credentials_fails 10 2021 3 (some []) ⟨200, ⟨[], [], 1, 2⟩⟩ rfl⟩

/-- C2: for every HTTP status outside `[200, 299]`, the status validator and
each fetch operation (league meta, team meta, rosters) fail with the HTTP
error carrying that status, the instance state (previously fetched `meta`)
is returned unchanged by the failing operation, and for every status in
`[200, 299]` the validator succeeds silently. -/
theorem non2xx_status_fails_every_fetch
    (status : Nat) (h : ¬(200 ≤ status ∧ status ≤ 299)) :
    request_status status = .error (.httpError status) ∧
    (∀ body : LeagueBody,
      fetchLeagueMeta ⟨status, body⟩ = .error (.httpError status)) ∧
    (∀ (st : LeagueState) (tid : Option Int) (body : List MTeamEntry),
      fetchTeamMeta st tid ⟨status, body⟩ = (st, .error (.httpError status))) ∧
    (∀ (st : LeagueState) (body : List RawRoster),
      fetchRosters st ⟨status, body⟩ = (st, .error (.httpError status))) ∧
    (∀ s : Nat, 200 ≤ s → s ≤ 299 → request_status s = .ok ()) := by
  refine ⟨?_, ?_, ?_, ?_, ?_⟩
  · simp [request_status, h]
  · intro body
    simp only [fetchLeagueMeta, request_status, if_neg h]
    rfl
  · intro st tid body
    simp only [fetchTeamMeta, request_status, if_neg h]
    rfl
  · intro st body
    simp only [fetchRosters, request_status, if_neg h]
    rfl
  · intro s h1 h2
    simp [request_status, h1, h2]

/-- Witness for C2 at status `404`: every fetch fails with the HTTP error
carrying `404` and leaves the state unchanged, and `200` validates. -/
theorem non2xx_status_fails_every_fetch_witness :
    ¬(200 ≤ 404 ∧ 404 ≤ 299) ∧
    request_status 404 = .error (.httpError 404) ∧
    fetchTeamMeta st0 (some 1) ⟨404, [mt1]⟩ = (st0, .error (.httpError 404)) ∧
    fetchRosters st0 ⟨404, []⟩ = (st0, .error (.httpError 404)) ∧
    request_status 200 = .ok () := by
  have h := non2xx_status_fails_every_fetch 404 (by decide)
  exact ⟨by decide, h.1, h.2.2.1 st0 (some 1) [mt1], h.2.2.2.1 st0 [],
    h.2.2.2.2 200 (by decide) (by decide)⟩

/-- C3: the nested field accessor walks a dot-delimited path segment by
segment — a finished path returns the current value, a segment on a mapping
descends through the key when present and yields the missing sentinel when
absent (`Option.bind` over the dictionary lookup), and a segment on any
non-mapping value yields the missing sentinel; on the spec's example mapping
`{"a": {"b": {"c": 5}}}`, path `"a.b.c"` yields `5`, `"a.x.c"` and
`"a.b.c.d"` yield the sentinel.  The accessor is a pure function, so the
input mapping is never mutated. -/
theorem nested_accessor_walks_paths :
    (∀ v : JVal, getNestedGo [] v = some v) ∧
    (∀ (k : String) (rest : List String) (fields : List (String × JVal)),
      getNestedGo (k :: rest) (.obj fields) =
        (dictGet fields k).bind (getNestedGo rest)) ∧
    (∀ (k : String) (rest : List String),
      getNestedGo (k :: rest) .null = none) ∧
    (∀ (k : String) (rest : List String) (n : Int),
      getNestedGo (k :: rest) (.num n) = none) ∧
    (∀ (k : String) (rest : List String) (s : String),
      getNestedGo (k :: rest) (.str s) = none) ∧
    (∀ (k : String) (rest : List String) (xs : List JVal),
      getNestedGo (k :: rest) (.arr xs) = none) ∧
    get_nested exMap "a.b.c" = some (.num 5) ∧
    get_nested exMap "a.x.c" = none ∧
    get_nested exMap "a.b.c.d" = none := by
  refine ⟨fun v => rfl, ?_, fun k rest => rfl, fun k rest n => rfl,
    fun k rest s => rfl, fun k rest xs => rfl, rfl, rfl, rfl⟩
  intro k rest fields
  simp only [getNestedGo, dictGet]
  cases fields.find? (fun kv => kv.1 == k) <;> simp

/-- C4: the stat code mapper keeps exactly the entries whose key is in the
static stat-ID-to-name mapping, renames each kept key to its canonical name
with the value unchanged, and drops unknown keys silently; on the spec's
example `{0: 10, 1: 3, 999: 7}` with `0 → points`, `1 → blocks` defined and
`999` undefined, the output is exactly `{points: 10, blocks: 3}`. -/
theorem stat_code_mapper_filters_and_renames :
    statCodeMapper [] = [] ∧
    (∀ (k : Nat) (v : Int) (rest : List (Nat × Int)),
      statCodeMapper ((k, v) :: rest) =
        ((statName k).map (fun nm => (nm, v))).toList ++ statCodeMapper rest) ∧
    statName 0 = some "points" ∧
    statName 1 = some "blocks" ∧
    statName 999 = none ∧
    statCodeMapper [(0, 10), (1, 3), (999, 7)] = [("points", 10), ("blocks", 3)] := by
  refine ⟨rfl, ?_, rfl, rfl, rfl, rfl⟩
  intro k v rest
  simp only [statCodeMapper, List.filterMap_cons]
  cases statName k <;> simp

/-- C5: for every team array and every 1-based `team_id` within range, the
team-meta lookup resolves the team at 0-based array position `team_id - 1`
and builds the team meta from it. -/
theorem team_lookup_is_one_based
    (st : LeagueState) (status : Nat) (body : List MTeamEntry) (tid : Int)
    (h2xx : 200 ≤ status ∧ status ≤ 299) (h1 : 1 ≤ tid) (h2 : tid ≤ body.length) :
    ∃ t : MTeamEntry, body.get? (tid - 1).toNat = some t ∧
      fetchTeamMeta st (some tid) ⟨status, body⟩ =
        (st, .ok ⟨tid, t.abbrev, t.primaryOwner, t.nickname,
          (t.wins, t.losses, t.ties), t.valuesByStat⟩) := by
  have hlt : (tid - 1).toNat < body.length := by omega
  refine ⟨body.get ⟨(tid - 1).toNat, hlt⟩, List.get?_eq_get hlt, ?_⟩
  have hpy : pyIndex body (tid - 1) = some (body.get ⟨(tid - 1).toNat, hlt⟩) := by
    unfold pyIndex
    rw [if_pos (by omega : (0 : Int) ≤ tid - 1)]
    exact List.get?_eq_get hlt
  unfold fetchTeamMeta
  simp only [Option.getD_some]
  rw [show request_status status = .ok () by simp [request_status, h2xx.1, h2xx.2]]
  simp [hpy]
  rfl

/-- Witness for C5: a team array of length 3 and `team_id = 2` resolve to the
element at index 1. -/
theorem team_lookup_is_one_based_witness :
    (∃ t : MTeamEntry, ([mt1, mt2, mt3] : List MTeamEntry).get? ((2 : Int) - 1).toNat = some t ∧
      fetchTeamMeta st0 (some 2) ⟨200, [mt1, mt2, mt3]⟩ =
        (st0, .ok ⟨2, t.abbrev, t.primaryOwner, t.nickname,
          (t.wins, t.losses, t.ties), t.valuesByStat⟩)) ∧
    ([mt1, mt2, mt3] : List MTeamEntry).get? 1 = some mt2 :=
  ⟨team_lookup_is_one_based st0 200 [mt1, mt2, mt3] 2
      ⟨by decide, by decide⟩ (by decide) (by simp), rfl⟩

/-- C9: for `team_id = 0` the lookup does not fail: index `-1` resolves, by
Python negative indexing, to the last element of a non-empty team array, and
that team's metadata is returned as team 0's. -/
theorem team_id_zero_resolves_last_team
    (st : LeagueState) (status : Nat) (body : List MTeamEntry)
    (h2xx : 200 ≤ status ∧ status ≤ 299) (hne : body ≠ []) :
    fetchTeamMeta st (some 0) ⟨status, body⟩ =
      (st, .ok ⟨0, (body.getLast hne).abbrev, (body.getLast hne).primaryOwner,
        (body.getLast hne).nickname,
        ((body.getLast hne).wins, (body.getLast hne).losses, (body.getLast hne).ties),
        (body.getLast hne).valuesByStat⟩) := by
  have hlen : 1 ≤ body.length := by
    cases body with
    | nil => simp at hne
    | cons a t => simp
  have hget : body.get? (body.length - 1) = some (body.getLast hne) := by
    have hlt : body.length - 1 < body.length := by omega
    rw [List.get?_eq_getElem?, List.getElem?_eq_getElem hlt, List.getLast_eq_getElem]
  have hpy : pyIndex body ((0 : Int) - 1) = some (body.getLast hne) := by
    unfold pyIndex
    rw [if_neg (by norm_num), if_pos (by simpa using hlen)]
    simpa using hget
  unfold fetchTeamMeta
  simp only [Option.getD_some]
  rw [show request_status status = .ok () by simp [request_status, h2xx.1, h2xx.2]]
  rw [hpy]
  rfl

/-- Witness for C9: on the three-team array, `team_id = 0` resolves to the
third (last) team. -/
theorem team_id_zero_resolves_last_team_witness :
    fetchTeamMeta st0 (some 0) ⟨200, [mt1, mt2, mt3]⟩ =
      (st0, .ok ⟨0, "CCC", "o3", "Team Three", (0, 3, 1), []⟩) := by
  have h := team_id_zero_resolves_last_team st0 200 [mt1, mt2, mt3]
    ⟨by decide, by decide⟩ (by simp)
  simpa [List.getLast, mt3] using h

/-- Helper: a flat-map whose pieces all have length one preserves the list
length. -/
theorem flatMap_length_of_singletons {α β : Type} (g : α → List β) :
    ∀ l : List α, (∀ e ∈ l, (g e).length = 1) → (l.flatMap g).length = l.length := by
  intro l
  induction l with
  | nil => intro _; rfl
  | cons a t ih =>
      intro h
      simp only [List.flatMap_cons, List.length_append, List.length_cons,
        h a (by simp), ih fun e he => h e (List.mem_cons_of_mem a he)]
      omega

/-- Helper: when every roster is non-empty, the totals loop succeeds and
returns one row per roster. -/
theorem totalsRow_forE_ok (rs : List (List PlayerStat))
    (hne : ∀ r ∈ rs, r ≠ []) :
    forE totalsRow rs = .ok (rs.map mkStatTotals) := by
  apply forE_ok_of_all
  intro r hr
  cases r with
  | nil => exact absurd rfl (hne [] hr)
  | cons a t => rfl

/-- C6 counterexample: the claim says a supplied `team_id` matching no team
returns an empty collection, but the supplied empty string — Python-falsy —
matches no team (the only totals row has `teamId = "A"`), yet the call
returns all totals, a non-empty collection. -/
theorem totals_falsy_filter_counterexample :
    calculateTotals [[pA]] (some "") = .ok [⟨"A", 10, 0, 0, 0, 0⟩] ∧
    ("A" : String) ≠ "" ∧
    calculateTotals [[pA]] (some "") ≠ .ok [] := by
  refine ⟨rfl, by decide, ?_⟩
  intro h
  rw [show calculateTotals [[pA]] (some "") = .ok [⟨"A", 10, 0, 0, 0, 0⟩] from rfl] at h
  have h2 := Except.ok.inj h
  cases h2

/-- C6 (amended): with every roster non-empty, the totals computation
produces one row per team whose five canonical fields are the sums over that
team's player records; a supplied non-falsy `team_id` returns exactly the
rows whose `teamId` equals it (so a `team_id` matching no team yields the
empty collection, and one matching a single team yields that single row),
while a Python-falsy `team_id` (`None` or the empty string) is treated as no
filter and returns all rows. -/
theorem totals_sum_and_filter (rs : List (List PlayerStat))
    (hne : ∀ r ∈ rs, r ≠ []) :
    calculateTotals rs none = .ok (rs.map mkStatTotals) ∧
    calculateTotals rs (some "") = .ok (rs.map mkStatTotals) ∧
    (∀ s : String, s ≠ "" →
      calculateTotals rs (some s) =
        .ok ((rs.map mkStatTotals).filter (fun x => x.teamId == s))) ∧
    (∀ r ∈ rs, (mkStatTotals r).points = (r.map (fun d => d.stats.points)).sum ∧
      (mkStatTotals r).blocks = (r.map (fun d => d.stats.blocks)).sum ∧
      (mkStatTotals r).steals = (r.map (fun d => d.stats.steals)).sum ∧
      (mkStatTotals r).assists = (r.map (fun d => d.stats.assists)).sum ∧
      (mkStatTotals r).rebounds = (r.map (fun d => d.stats.rebounds)).sum) := by
  have hfor := totalsRow_forE_ok rs hne
  refine ⟨?_, ?_, ?_, fun r _ => ⟨rfl, rfl, rfl, rfl, rfl⟩⟩
  · unfold calculateTotals
    rw [hfor]
    rfl
  · unfold calculateTotals
    rw [hfor]
    rfl
  · intro s hs
    unfold calculateTotals
    rw [hfor]
    have hbeq : (s == "") = false := beq_eq_false_iff_ne.mpr hs
    rw [show teamIdTruthy (some s) = true by simp [teamIdTruthy, hbeq]]
    rfl

/-- Witness for C6: two player records with 10 and 5 points sum to 15, and
filtering by the non-existent team id `"Z"` returns the empty collection. -/
theorem totals_sum_and_filter_witness :
    calculateTotals [[pA, pB]] none = .ok [⟨"A", 15, 0, 0, 0, 0⟩] ∧
    calculateTotals [[pA, pB]] (some "Z") = .ok [] := by
  have h := totals_sum_and_filter [[pA, pB]] (by simp)
  constructor
  · rw [h.1]; rfl
  · rw [h.2.2.1 "Z" (by decide)]; rfl

/-- C10: the totals computation reads `roster[0]` of each team's list, so it
succeeds exactly when every team's list is non-empty; an input containing an
empty team list fails with the out-of-range (`IndexError`) access instead of
producing zero totals. -/
theorem totals_requires_nonempty_rosters
    (rs : List (List PlayerStat)) (tid : Option String) :
    ((∀ r ∈ rs, r ≠ []) → ∃ tt, calculateTotals rs tid = .ok tt) ∧
    ([] ∈ rs → calculateTotals rs tid = .error .indexError) := by
  constructor
  · intro hne
    have hfor := totalsRow_forE_ok rs hne
    unfold calculateTotals
    rw [hfor]
    cases h : teamIdTruthy tid with
    | false => exact ⟨rs.map mkStatTotals, rfl⟩
    | true =>
        exact ⟨(rs.map mkStatTotals).filter (fun x => some x.teamId == tid), rfl⟩
  · intro hmem
    have hfor : forE totalsRow rs = .error .indexError := by
      apply forE_error_of_mem
      · intro a _
        cases a with
        | nil => exact Or.inl rfl
        | cons x t => exact Or.inr ⟨mkStatTotals (x :: t), rfl⟩
      · exact ⟨[], hmem, rfl⟩
    unfold calculateTotals
    rw [hfor]
    rfl

/-- Witness for C10: one non-empty roster succeeds; a list containing an
empty roster fails with `IndexError`. -/
theorem totals_requires_nonempty_rosters_witness :
    (∃ tt, calculateTotals [[pA]] none = .ok tt) ∧
    calculateTotals [[]] none = .error .indexError :=
  ⟨(totals_requires_nonempty_rosters [[pA]] none).1 (by simp),
   (totals_requires_nonempty_rosters [[]] none).2 (by simp)⟩

/-- C7: a player whose stats list has no split-type-`2` statline contributes
no entry and no error to the team's stat list: the result equals the one for
the roster without that player, and — when the fetch succeeds and every other
player has exactly one season-total statline — the team's list is shorter by
one relative to the roster size.  Statlines of other split types are ignored
(only `seasonStatlines`, the split-type-`2` ones, enter the loop). -/
theorem player_without_season_statline_omitted
    (teams : List NamedTeam) (tid : Int) (as bs : List RosterEntry)
    (q : RosterEntry) (hq : seasonStatlines q.player = []) :
    fetchTeamStats teams ⟨tid, as ++ q :: bs⟩ =
      fetchTeamStats teams ⟨tid, as ++ bs⟩ ∧
    (∀ ts : List PlayerStat,
      fetchTeamStats teams ⟨tid, as ++ q :: bs⟩ = .ok ts →
      (∀ e ∈ as ++ bs, (seasonStatlines e.player).length = 1) →
      ts.length = (as ++ q :: bs).length - 1) := by
  have hflat :
      (as ++ q :: bs).flatMap
        (fun e => (seasonStatlines e.player).map (fun sl => (e.player, sl))) =
      (as ++ bs).flatMap
        (fun e => (seasonStatlines e.player).map (fun sl => (e.player, sl))) := by
    simp [List.flatMap_append, List.flatMap_cons, hq]
  have hpart1 : fetchTeamStats teams ⟨tid, as ++ q :: bs⟩ =
      fetchTeamStats teams ⟨tid, as ++ bs⟩ := by
    unfold fetchTeamStats
    rw [hflat]
  refine ⟨hpart1, ?_⟩
  intro ts hts hall
  rw [hpart1] at hts
  unfold fetchTeamStats at hts
  have hlen := forE_length _ _ _ hts
  have hfl :
      ((as ++ bs).flatMap
        (fun e => (seasonStatlines e.player).map (fun sl => (e.player, sl)))).length =
      (as ++ bs).length := by
    apply flatMap_length_of_singletons
    intro e he
    simp [List.length_map, hall e he]
  rw [hlen, hfl]
  simp

/-- Witness for C7: a two-player roster where the second player has only a
weekly statline produces the same result as the one-player roster, succeeds,
and has length `1 = 2 - 1`. -/
theorem player_without_season_statline_omitted_witness :
    seasonStatlines entryQ.player = [] ∧
    fetchTeamStats sampleTeams ⟨1, [entry1, entryQ]⟩ =
      fetchTeamStats sampleTeams ⟨1, [entry1]⟩ ∧
    ∃ ts : List PlayerStat,
      fetchTeamStats sampleTeams ⟨1, [entry1, entryQ]⟩ = .ok ts ∧
      ts.length = ([entry1, entryQ] : List RosterEntry).length - 1 := by
  have h := player_without_season_statline_omitted sampleTeams 1 [entry1] []
    entryQ rfl
  have h1 : fetchTeamStats sampleTeams ⟨1, [entry1, entryQ]⟩ =
      fetchTeamStats sampleTeams ⟨1, [entry1]⟩ := h.1
  have h2 : ∀ ts : List PlayerStat,
      fetchTeamStats sampleTeams ⟨1, [entry1, entryQ]⟩ = .ok ts →
      (∀ e ∈ ([entry1] : List RosterEntry), (seasonStatlines e.player).length = 1) →
      ts.length = ([entry1, entryQ] : List RosterEntry).length - 1 := h.2
  refine ⟨rfl, h1, ⟨"A", "Alice", 100, ⟨10, 0, 0, 0, 0⟩⟩ :: [], ?_, ?_⟩
  · rw [h1]
    rfl
  · exact h2 _ (by rw [h1]; rfl) (by decide)

/-- C8: every canonical stat field of a built player stat record is the
mapped raw value when the canonical key is present after stat-code mapping
and `0` when it is absent (`_cast_none` coerces absence to a defined zero),
so each field is always a defined integer and the later summation cannot
meet missing data; when no raw key maps to any canonical name, the record's
stats are all zero. -/
theorem stat_fields_coerce_absence_to_zero
    (team_name : String) (p : PlayerInfo) (sl : RawStatline)
    (st : List (Nat × Int)) (hst : sl.stats = some st) :
    ∃ r : PlayerStat, mkPlayerRecord team_name p sl = .ok r ∧
      r.stats.points = (dictGet (statCodeMapper st) "points").getD 0 ∧
      r.stats.blocks = (dictGet (statCodeMapper st) "blocks").getD 0 ∧
      r.stats.steals = (dictGet (statCodeMapper st) "steals").getD 0 ∧
      r.stats.assists = (dictGet (statCodeMapper st) "assists").getD 0 ∧
      r.stats.rebounds = (dictGet (statCodeMapper st) "rebounds").getD 0 ∧
      (statCodeMapper st = [] → r.stats = ⟨0, 0, 0, 0, 0⟩) := by
  cases sl with
  | mk split stats =>
      cases hst
      refine ⟨_, rfl, rfl, rfl, rfl, rfl, rfl, ?_⟩
      intro hmap
      show StatFields.mk
        (cast_none (dictGet (statCodeMapper st) "points"))
        (cast_none (dictGet (statCodeMapper st) "blocks"))
        (cast_none (dictGet (statCodeMapper st) "steals"))
        (cast_none (dictGet (statCodeMapper st) "assists"))
        (cast_none (dictGet (statCodeMapper st) "rebounds")) = ⟨0, 0, 0, 0, 0⟩
      rw [hmap]
      rfl

/-- Witness for C8: a raw stat mapping with only the unknown key `999` maps
to no canonical key, and the built record's stats are all zero. -/
theorem stat_fields_coerce_absence_to_zero_witness :
    (∃ r : PlayerStat,
      mkPlayerRecord "A" ⟨"Alice", 100, []⟩ ⟨some 2, some [(999, 7)]⟩ = .ok r ∧
      r.stats.points = (dictGet (statCodeMapper [(999, 7)]) "points").getD 0 ∧
      r.stats.blocks = (dictGet (statCodeMapper [(999, 7)]) "blocks").getD 0 ∧
      r.stats.steals = (dictGet (statCodeMapper [(999, 7)]) "steals").getD 0 ∧
      r.stats.assists = (dictGet (statCodeMapper [(999, 7)]) "assists").getD 0 ∧
      r.stats.rebounds = (dictGet (statCodeMapper [(999, 7)]) "rebounds").getD 0 ∧
      (statCodeMapper [(999, 7)] = [] → r.stats = ⟨0, 0, 0, 0, 0⟩)) ∧
    statCodeMapper [(999, 7)] = [] ∧
    mkPlayerRecord "A" ⟨"Alice", 100, []⟩ ⟨some 2, some [(999, 7)]⟩ =
      .ok ⟨"A", "Alice", 100, ⟨0, 0, 0, 0, 0⟩⟩ :=
  ⟨stat_fields_coerce_absence_to_zero "A" ⟨"Alice", 100, []⟩
      ⟨some 2, some [(999, 7)]⟩ [(999, 7)] rfl, rfl, rfl⟩

end FantasyAnalytics
